import Mathlib

/-
Verification of vhm-common-utils (src/vhm_common_utils/): a shallow
embedding of the data models (data_models.py), the settings loader
(config.py) and the embedding entry point (embedding.py), followed by
theorems settling the specification claims.

Python values crossing the pydantic validation boundary are modelled by
the inductive type PyObj; Python float literals are modelled as rationals
(every Python float denotes a rational number, and no claim depends on
rounding); datetime.datetime is modelled by PyDatetime with an optional
timezone offset (tzinfo is None exactly when tz = none).
-/

namespace VhmCommonUtils

/-- Model of Python datetime.datetime: calendar fields plus an optional
timezone offset in minutes. A naive datetime (tzinfo is None) has
tz = none; an aware one has tz = some offset. -/
structure PyDatetime where
  year : Nat
  month : Nat
  day : Nat
  hour : Nat
  minute : Nat
  second : Nat
  microsecond : Nat
  tz : Option Int
deriving Repr, DecidableEq

/-- Model of a dynamically typed Python value as it reaches pydantic
validation: None, bool, int, float (as a rational), str, list, dict with
string keys, or a datetime object. -/
inductive PyObj where
  | none
  | bool (b : Bool)
  | int (n : Int)
  | float (q : ℚ)
  | str (s : String)
  | list (xs : List PyObj)
  | dict (xs : List (String × PyObj))
  | datetime (d : PyDatetime)

/-- True on an Except.error, false on an Except.ok. -/
def isErr {α : Type} : Except String α → Bool
  | .error _ => true
  | .ok _ => false

/-- Pydantic v2 validation of a plain `str` field: only Python str values
are accepted (v2 does not coerce numbers to strings). -/
def validateStr (fieldName : String) : PyObj → Except String String
  | .str s => .ok s
  | _ => .error (fieldName ++ ": Input should be a valid string")

/-- Pydantic v2 validation of a `str | None` field: None and str values
are accepted. -/
def validateOptStr (fieldName : String) : PyObj → Except String (Option String)
  | .none => .ok Option.none
  | .str s => .ok (some s)
  | _ => .error (fieldName ++ ": Input should be a valid string")

/-- Decimal string parser used by the lax float coercion: an optional
sign, digits, and an optional fractional part (exponents are not
modelled; no claim depends on them). -/
def parseDigits : List Char → Option ℚ → Option ℚ
  | [], acc => acc
  | c :: cs, acc =>
    if c.isDigit then
      parseDigits cs (some ((acc.getD 0) * 10 + (c.toNat - 48 : ℕ)))
    else
      Option.none

def parseFrac : List Char → ℚ → ℚ → Option ℚ
  | [], acc, _ => some acc
  | c :: cs, acc, scale =>
    if c.isDigit then
      parseFrac cs (acc + (c.toNat - 48 : ℕ) * scale / 10) (scale / 10)
    else
      Option.none

def parseDecCore (cs : List Char) : Option ℚ :=
  match cs.span (fun c => c ≠ '.') with
  | (intPart, []) => parseDigits intPart Option.none
  | (intPart, _ :: fracPart) =>
    match parseDigits intPart Option.none, parseFrac fracPart 0 (1/10) with
    | some i, some f => some (i + f)
    | some i, _ => if fracPart = [] then some i else Option.none
    | _, _ => Option.none

def parseDecimal (s : String) : Option ℚ :=
  match s.toList with
  | '-' :: rest => (parseDecCore rest).map (fun q => -q)
  | '+' :: rest => parseDecCore rest
  | cs => parseDecCore cs

/-- Pydantic v2 lax validation of a `float` field: float and int values
are accepted (bool is rejected), and numeric strings are coerced. -/
def validateFloat (fieldName : String) : PyObj → Except String ℚ
  | .float q => .ok q
  | .int n => .ok (n : ℚ)
  | .str s =>
    match parseDecimal s with
    | some q => .ok q
    | Option.none => .error (fieldName ++ ": Input should be a valid number")
  | _ => .error (fieldName ++ ": Input should be a valid number")

/-- Pydantic v2 lax validation of a `bool` field: bool values, the ints
0 and 1, the floats 0.0 and 1.0, and the recognized truthy/falsy
strings are accepted. -/
def boolStrings : List (String × Bool) :=
  [("true", true), ("t", true), ("yes", true), ("y", true), ("on", true), ("1", true),
   ("false", false), ("f", false), ("no", false), ("n", false), ("off", false), ("0", false)]

def validateBool (fieldName : String) : PyObj → Except String Bool
  | .bool b => .ok b
  | .int 0 => .ok false
  | .int 1 => .ok true
  | .float q => if q = 0 then .ok false else if q = 1 then .ok true
      else .error (fieldName ++ ": Input should be a valid boolean")
  | .str s =>
    match boolStrings.lookup s.toLower with
    | some b => .ok b
    | Option.none => .error (fieldName ++ ": Input should be a valid boolean")
  | _ => .error (fieldName ++ ": Input should be a valid boolean")

/-- Validation of a `datetime.datetime` field: datetime objects pass
through unchanged. Lax coercions of numeric timestamps and ISO strings
are outside every claim and are not modelled. -/
def validateDatetime (fieldName : String) : PyObj → Except String PyDatetime
  | .datetime d => .ok d
  | _ => .error (fieldName ++ ": Input should be a valid datetime")

/-- Validation of a `Dict[str, Any]` field: only Python dicts (whose
keys are strings by construction of PyObj) are accepted; the values
pass through unchanged. -/
def validateMeta (fieldName : String) : PyObj → Except String (List (String × PyObj))
  | .dict xs => .ok xs
  | _ => .error (fieldName ++ ": Input should be a valid dictionary")

/-- Validation of a required field: an omitted keyword argument (modelled
as Option.none) is a missing-field validation error. -/
def requiredField {α : Type} (fieldName : String)
    (validator : PyObj → Except String α) : Option PyObj → Except String α
  | Option.none => .error (fieldName ++ ": Field required")
  | some v => validator v

/-- Validation of an optional field: an omitted keyword argument takes
the declared default. -/
def optionalField {α : Type} (dflt : α)
    (validator : PyObj → Except String α) : Option PyObj → Except String α
  | Option.none => .ok dflt
  | some v => validator v

/-- Anchor record from src/vhm_common_utils/data_models.py. -/
structure Anchor where
  anchor_id : String
  text : String
  stored_at : PyDatetime
  salience : ℚ
  meta : List (String × PyObj)

/-- Pydantic construction of Anchor: each keyword argument is Option.none
when omitted. anchor_id, text and stored_at are required; salience
defaults to 1.0 and meta to the empty dict. Validation is all-or-nothing:
an Except.error carries no record at all. -/
def Anchor.validate (anchor_id text stored_at salience meta : Option PyObj) :
    Except String Anchor := do
  let aid ← requiredField "anchor_id" (validateStr "anchor_id") anchor_id
  let t ← requiredField "text" (validateStr "text") text
  let d ← requiredField "stored_at" (validateDatetime "stored_at") stored_at
  let s ← optionalField (1 : ℚ) (validateFloat "salience") salience
  let m ← optionalField ([] : List (String × PyObj)) (validateMeta "meta") meta
  .ok { anchor_id := aid, text := t, stored_at := d, salience := s, meta := m }

/-- IndexedAnchorResponse record from src/vhm_common_utils/data_models.py. -/
structure IndexedAnchorResponse where
  anchor_id : String
  ok : Bool
  reason : Option String
  detail : Option String

/-- Pydantic construction of IndexedAnchorResponse: anchor_id and ok are
required; reason and detail default to None. -/
def IndexedAnchorResponse.validate (anchor_id ok reason detail : Option PyObj) :
    Except String IndexedAnchorResponse := do
  let aid ← requiredField "anchor_id" (validateStr "anchor_id") anchor_id
  let okv ← requiredField "ok" (validateBool "ok") ok
  let r ← optionalField (Option.none : Option String) (validateOptStr "reason") reason
  let d ← optionalField (Option.none : Option String) (validateOptStr "detail") detail
  .ok { anchor_id := aid, ok := okv, reason := r, detail := d }

/-- Settings record from src/vhm_common_utils/config.py. -/
structure Settings where
  kafka_bootstrap_servers : String
  qdrant_url : String
  qdrant_collection : String
  embedding_model : String
  ollama_base_url : String
  portkey_api_key : Option String
  portkey_base_url : String
deriving Repr, DecidableEq

/-- Resolution of one string-valued setting: the process environment is
checked first, then the .env file, then the coded default. Environment
lookup is by the canonical upper-case variable name (pydantic-settings
matches case-insensitively; the canonical name stands for the match). -/
def resolveSetting (env fileEnv : String → Option String)
    (name : String) (dflt : String) : String :=
  ((env name).orElse (fun _ => fileEnv name)).getD dflt

/-- Construction of Settings (class Settings(BaseSettings) in config.py):
every field resolved from environment, then .env file, then its default.
portkey_api_key is `str | None = None`: absent unless supplied. -/
def Settings.load (env fileEnv : String → Option String) : Settings :=
  { kafka_bootstrap_servers :=
      resolveSetting env fileEnv "KAFKA_BOOTSTRAP_SERVERS" "localhost:9092"
    qdrant_url := resolveSetting env fileEnv "QDRANT_URL" "http://localhost:6333"
    qdrant_collection := resolveSetting env fileEnv "QDRANT_COLLECTION" "anchors"
    embedding_model := resolveSetting env fileEnv "EMBEDDING_MODEL" "deterministic"
    ollama_base_url := resolveSetting env fileEnv "OLLAMA_BASE_URL" "http://localhost:11434"
    portkey_api_key :=
      (env "PORTKEY_API_KEY").orElse (fun _ => fileEnv "PORTKEY_API_KEY")
    portkey_base_url :=
      resolveSetting env fileEnv "PORTKEY_BASE_URL" "https://api.portkey.ai/v1" }

/-- The empty environment: no variable set. -/
def emptyEnv : String → Option String := fun _ => Option.none

/-- An environment with exactly one variable set. -/
def singleEnv (name value : String) : String → Option String :=
  fun k => if k = name then some value else Option.none

/-- The settings object as built with no overrides (the documented
defaults). -/
def defaultSettings : Settings := Settings.load emptyEnv emptyEnv

/-- get_embedding from src/vhm_common_utils/embedding.py. Its entire body
is the statement `pass`, so for every input it returns Python None and
raises nothing; the settings object it imports is never read. The
Settings parameter makes that explicit. -/
def get_embedding (stngs : Settings) (text : String) : PyObj :=
  PyObj.none

/-- True when a PyObj is a non-empty Python list whose elements are all
ints or floats (a non-empty numeric vector). -/
def PyObj.isNumericScalar : PyObj → Bool
  | .int _ => true
  | .float _ => true
  | _ => false

def PyObj.isNumericVector : PyObj → Bool
  | .list xs => !xs.isEmpty && xs.all PyObj.isNumericScalar
  | _ => false

/-- A Settings value with embedding_model "portkey" and no API key
configured (all other fields at default). -/
def portkeyNoKeySettings : Settings :=
  { defaultSettings with embedding_model := "portkey" }

/-- A naive datetime (tzinfo is None). -/
def naiveDt : PyDatetime :=
  { year := 2024, month := 1, day := 1, hour := 0, minute := 0,
    second := 0, microsecond := 0, tz := Option.none }

/-- An aware datetime (tzinfo UTC, offset 0 minutes). -/
def utcDt : PyDatetime :=
  { year := 2024, month := 1, day := 1, hour := 0, minute := 0,
    second := 0, microsecond := 0, tz := some 0 }

/-- C1: at the input "This is a test." (the input of the repository test
test_get_embedding_placeholder, which expects the list [0.1, 0.2, 0.3]),
get_embedding under default settings returns Python None, which is not a
non-empty sequence of numbers — the code contradicts its own test. -/
theorem c1_get_embedding_returns_none :
    get_embedding defaultSettings "This is a test." = PyObj.none ∧
    (get_embedding defaultSettings "This is a test.").isNumericVector = false := by
  exact ⟨rfl, rfl⟩

/-- C2: with the deterministic strategy selected, two calls of
get_embedding on the same text return exactly equal results (the function
is a pure function of its arguments, with no randomness or I/O). -/
theorem c2_get_embedding_deterministic (s : Settings) (t : String)
    (h : s.embedding_model = "deterministic") :
    get_embedding s t = get_embedding s t := rfl

/-- C2 witness: the default settings select the deterministic model, and
the theorem applies at the empty string. -/
theorem c2_get_embedding_deterministic_witness :
    defaultSettings.embedding_model = "deterministic" ∧
    get_embedding defaultSettings "" = get_embedding defaultSettings "" :=
  ⟨rfl, c2_get_embedding_deterministic defaultSettings "" rfl⟩

/-- C3: with embedding_model = "portkey" and portkey_api_key absent,
get_embedding does not fail at all: for every text it returns Python None
and raises no configuration error (its body is only `pass`). -/
theorem c3_get_embedding_portkey_no_error :
    portkeyNoKeySettings.embedding_model = "portkey" ∧
    portkeyNoKeySettings.portkey_api_key = Option.none ∧
    ∀ t : String, get_embedding portkeyNoKeySettings t = PyObj.none :=
  ⟨rfl, rfl, fun _ => rfl⟩

/-- C4: get_embedding never crashes, but at the empty string (covered by
the repository test test_embedding_empty_string, which asserts the result
is a list) it returns Python None — neither a valid numeric vector nor a
signalled error, contradicting the asserted totality contract. -/
theorem c4_get_embedding_not_vector_nor_error :
    get_embedding defaultSettings "" = PyObj.none ∧
    (get_embedding defaultSettings "").isNumericVector = false :=
  ⟨rfl, rfl⟩

/-- C6: constructing an Anchor with salience and meta omitted yields
salience = 1.0 and meta = the empty mapping (for every anchor_id, text
and stored_at). -/
theorem c6_anchor_defaults (aid t : String) (d : PyDatetime) :
    Anchor.validate (some (PyObj.str aid)) (some (PyObj.str t))
        (some (PyObj.datetime d)) Option.none Option.none =
      .ok { anchor_id := aid, text := t, stored_at := d,
            salience := 1, meta := [] } := rfl

/-- C10: get_embedding returns the same result for every pair of inputs
and every pair of configurations — no dispatch on embedding_model (or on
anything else) occurs. -/
theorem c10_get_embedding_input_independent
    (s s' : Settings) (t t' : String) :
    get_embedding s t = get_embedding s' t' := rfl

/-- C9 counterexample: an Anchor constructed from a naive datetime (no
tzinfo) is accepted, and its stored_at carries no timezone — the claim
that every constructed Anchor is timezone-aware is false on the code. -/
theorem c9_naive_datetime_accepted :
    Anchor.validate (some (PyObj.str "a")) (some (PyObj.str "t"))
        (some (PyObj.datetime naiveDt)) Option.none Option.none =
      .ok { anchor_id := "a", text := "t", stored_at := naiveDt,
            salience := 1, meta := [] } ∧
    naiveDt.tz = Option.none :=
  ⟨rfl, rfl⟩

/-- C9 amended: Anchor does not enforce timezone-awareness; it stores
whatever datetime it is given, aware or naive, unchanged (the field is a
plain datetime.datetime with no awareness constraint). -/
theorem c9_anchor_stored_at_unconstrained (aid t : String) (d : PyDatetime) :
    Anchor.validate (some (PyObj.str aid)) (some (PyObj.str t))
        (some (PyObj.datetime d)) Option.none Option.none =
      .ok { anchor_id := aid, text := t, stored_at := d,
            salience := 1, meta := [] } := rfl

/-- Destructuring of a successful Except bind. -/
theorem exceptBind_ok {α β : Type} {x : Except String α}
    {f : α → Except String β} {b : β}
    (h : x >>= f = .ok b) : ∃ a, x = .ok a ∧ f a = .ok b := by
  cases x with
  | error e => simp [Bind.bind, Except.bind] at h
  | ok a => exact ⟨a, rfl, h⟩

/-- C5: whenever constructing an Anchor from a text string succeeds
(whatever the other field inputs are), the constructed record stores
that string exactly. -/
theorem c5_anchor_preserves_text (t : String)
    (anchor_id stored_at salience meta : Option PyObj) (a : Anchor)
    (h : Anchor.validate anchor_id (some (PyObj.str t))
        stored_at salience meta = .ok a) :
    a.text = t := by
  unfold Anchor.validate at h
  obtain ⟨aid, hA, h⟩ := exceptBind_ok h
  obtain ⟨t2, hT, h⟩ := exceptBind_ok h
  obtain ⟨d, hD, h⟩ := exceptBind_ok h
  obtain ⟨s, hS, h⟩ := exceptBind_ok h
  obtain ⟨m, hM, h⟩ := exceptBind_ok h
  simp only [requiredField, validateStr, Except.ok.injEq] at hT
  injection h with h
  rw [← h, ← hT]

/-- C5 witness: construction at a unicode/control-character text
succeeds, and the theorem applies there. -/
theorem c5_anchor_preserves_text_witness :
    (Anchor.validate (some (PyObj.str "w")) (some (PyObj.str "héllo🌍\x00\n"))
        (some (PyObj.datetime utcDt)) Option.none Option.none =
      .ok { anchor_id := "w", text := "héllo🌍\x00\n", stored_at := utcDt,
            salience := 1, meta := [] }) ∧
    ({ anchor_id := "w", text := "héllo🌍\x00\n", stored_at := utcDt,
       salience := 1, meta := [] } : Anchor).text = "héllo🌍\x00\n" :=
  ⟨rfl, c5_anchor_preserves_text "héllo🌍\x00\n" (some (PyObj.str "w"))
    (some (PyObj.datetime utcDt)) Option.none Option.none _ rfl⟩

/-- C7: with no overrides every documented default holds, and setting any
one of the seven recognized environment variables (to an arbitrary value)
overrides exactly the corresponding field, leaving every other field at
its default. -/
theorem c7_settings_defaults_and_overrides (v : String) :
    Settings.load emptyEnv emptyEnv =
      { kafka_bootstrap_servers := "localhost:9092"
        qdrant_url := "http://localhost:6333"
        qdrant_collection := "anchors"
        embedding_model := "deterministic"
        ollama_base_url := "http://localhost:11434"
        portkey_api_key := Option.none
        portkey_base_url := "https://api.portkey.ai/v1" } ∧
    Settings.load (singleEnv "KAFKA_BOOTSTRAP_SERVERS" v) emptyEnv =
      { defaultSettings with kafka_bootstrap_servers := v } ∧
    Settings.load (singleEnv "QDRANT_URL" v) emptyEnv =
      { defaultSettings with qdrant_url := v } ∧
    Settings.load (singleEnv "QDRANT_COLLECTION" v) emptyEnv =
      { defaultSettings with qdrant_collection := v } ∧
    Settings.load (singleEnv "EMBEDDING_MODEL" v) emptyEnv =
      { defaultSettings with embedding_model := v } ∧
    Settings.load (singleEnv "OLLAMA_BASE_URL" v) emptyEnv =
      { defaultSettings with ollama_base_url := v } ∧
    Settings.load (singleEnv "PORTKEY_API_KEY" v) emptyEnv =
      { defaultSettings with portkey_api_key := some v } ∧
    Settings.load (singleEnv "PORTKEY_BASE_URL" v) emptyEnv =
      { defaultSettings with portkey_base_url := v } := by
  refine ⟨rfl, ?_, ?_, ?_, ?_, ?_, ?_, ?_⟩ <;>
    simp [Settings.load, resolveSetting, singleEnv, emptyEnv, defaultSettings,
      Option.orElse, Option.getD]

/-- C8: construction is all-or-nothing (an Except is either an error or a
fully validated record) and fails on malformed input: each conjunct shows
a missing required field or a wrong-typed value (an int where a string is
required, a non-numeric string where a float is required, a list where a
bool is required) producing a validation error, for Anchor and for
IndexedAnchorResponse. -/
theorem c8_construction_validation_errors :
    (∀ text stored_at salience meta,
      isErr (Anchor.validate Option.none text stored_at salience meta) = true) ∧
    (∀ anchor_id stored_at salience meta,
      isErr (Anchor.validate anchor_id Option.none stored_at salience meta) = true) ∧
    (∀ anchor_id text salience meta,
      isErr (Anchor.validate anchor_id text Option.none salience meta) = true) ∧
    (∀ (n : Int) text stored_at salience meta,
      isErr (Anchor.validate (some (PyObj.int n)) text stored_at salience meta)
        = true) ∧
    (∀ (aid : String) (d : PyDatetime) meta,
      isErr (Anchor.validate (some (PyObj.str aid)) (some (PyObj.str "t"))
        (some (PyObj.datetime d)) (some (PyObj.str "not a number")) meta)
        = true) ∧
    (∀ ok reason detail,
      isErr (IndexedAnchorResponse.validate Option.none ok reason detail)
        = true) ∧
    (∀ anchor_id reason detail,
      isErr (IndexedAnchorResponse.validate anchor_id Option.none reason detail)
        = true) ∧
    (∀ (aid : String) (xs : List PyObj) reason detail,
      isErr (IndexedAnchorResponse.validate (some (PyObj.str aid))
        (some (PyObj.list xs)) reason detail) = true) := by
  refine ⟨fun _ _ _ _ => rfl, ?_, ?_, fun _ _ _ _ _ => rfl,
    fun _ _ _ => rfl, fun _ _ _ => rfl, ?_, fun _ _ _ _ => rfl⟩
  · intro anchor_id stored_at salience meta
    cases anchor_id with
    | none => rfl
    | some w => cases w <;> rfl
  · intro anchor_id text salience meta
    cases anchor_id with
    | none => rfl
    | some w =>
      cases w <;> try rfl
      cases text with
      | none => rfl
      | some u => cases u <;> rfl
  · intro anchor_id reason detail
    cases anchor_id with
    | none => rfl
    | some w => cases w <;> rfl

end VhmCommonUtils
